import Mathlib

/-!
Verification development for the selenium-bstack page-object framework.

The definitions below are a shallow embedding of `src/pages/base_page.py`
together with the pieces of `src/utils/browserstack_config.py` and
`src/utils/env_loader.py` that it consumes.  Pure Python functions become
Lean functions; exceptions become `Except PyExc`; Python dictionaries become
ordered association lists with Python's insert-or-overwrite assignment;
the Selenium wait loop (`WebDriverWait(...).until(cond)`) becomes a scan over
discrete poll ticks `0, 1, ..., timeout`.
-/

namespace BstackAB

/-- Exception kinds that the embedded code can raise.
`timeoutException` models `selenium.common.exceptions.TimeoutException`
(raised by `WebDriverWait.until` and re-raised by the page methods),
`noSuchElementException` models `NoSuchElementException` (raised by a bare
`driver.find_element`), and `valueError msg` models Python's
`ValueError(msg)` used by the framework for configuration misuse. -/
inductive PyExc where
  | timeoutException : PyExc
  | noSuchElementException : PyExc
  | valueError : String → PyExc
deriving DecidableEq, Repr

/-- A Selenium locator: a (By-strategy, selector) pair. -/
abbrev Locator := String × String

/-- A DOM element as the wait conditions observe it: whether it is displayed
(visible) and enabled (interactable), and its rendered text. -/
structure Element where
  eid : Nat
  displayed : Bool
  enabled : Bool
  text : String
deriving DecidableEq, Repr

/-- The browser page under automation, as a time-indexed DOM: `dom t loc` is
the list of elements matching locator `loc` at poll tick `t`. -/
structure Page where
  dom : Nat → Locator → List Element

/-- `EC.presence_of_element_located(locator)` at tick `t`: succeeds with the
first matching element as soon as one exists. -/
def presence_of_element_located (page : Page) (loc : Locator) (t : Nat) : Option Element :=
  (page.dom t loc).head?

/-- `EC.visibility_of_element_located(locator)` at tick `t`: succeeds when a
matching element exists and is displayed. -/
def visibility_of_element_located (page : Page) (loc : Locator) (t : Nat) : Option Element :=
  match (page.dom t loc).head? with
  | some e => if e.displayed then some e else none
  | none => none

/-- `EC.element_to_be_clickable(locator)` at tick `t`: succeeds when a
matching element exists, is displayed and is enabled. -/
def element_to_be_clickable (page : Page) (loc : Locator) (t : Nat) : Option Element :=
  match (page.dom t loc).head? with
  | some e => if e.displayed && e.enabled then some e else none
  | none => none

/-- `WebDriverWait(driver, timeout).until(cond)`: poll the condition at ticks
`0, 1, ..., timeout`; return the first success (with its tick), otherwise
raise `TimeoutException`. -/
def waitUntil {α : Type} (timeout : Nat) (cond : Nat → Option α) : Except PyExc (Nat × α) :=
  match (List.range (timeout + 1)).findSome? (fun t => (cond t).map (fun a => (t, a))) with
  | some r => .ok r
  | none => .error .timeoutException

/-- The Python expression `timeout or self.timeout` used at the top of every
wait-based method: `None` and `0` are falsy, so both select the session's
default timeout; any non-zero override is used as given. -/
def wait_time (selfTimeout : Nat) (timeout : Option Nat) : Nat :=
  match timeout with
  | none => selfTimeout
  | some t => if t = 0 then selfTimeout else t

/-- `BasePage.find_element`: wait for presence and return the element;
the `except TimeoutException` handler logs and re-raises, so a timeout
surfaces unchanged. -/
def find_element (page : Page) (selfTimeout : Nat) (locator : Locator)
    (timeout : Option Nat) : Except PyExc Element :=
  match waitUntil (wait_time selfTimeout timeout) (presence_of_element_located page locator) with
  | .ok r => .ok r.2
  | .error e => .error e

/-- `BasePage.find_elements`: wait for presence, then read every match from
the DOM at the tick the wait succeeded; the `except TimeoutException`
handler converts a timeout into the empty list. -/
def find_elements (page : Page) (selfTimeout : Nat) (locator : Locator)
    (timeout : Option Nat) : Except PyExc (List Element) :=
  match waitUntil (wait_time selfTimeout timeout) (presence_of_element_located page locator) with
  | .ok r => .ok (page.dom r.1 locator)
  | .error .timeoutException => .ok []
  | .error e => .error e

/-- `BasePage.wait_for_element_visible`: wait for visibility; a timeout is
logged and re-raised. -/
def wait_for_element_visible (page : Page) (selfTimeout : Nat) (locator : Locator)
    (timeout : Option Nat) : Except PyExc Element :=
  match waitUntil (wait_time selfTimeout timeout) (visibility_of_element_located page locator) with
  | .ok r => .ok r.2
  | .error e => .error e

/-- `BasePage.wait_for_element_clickable`: wait for clickability; a timeout
is logged and re-raised. -/
def wait_for_element_clickable (page : Page) (selfTimeout : Nat) (locator : Locator)
    (timeout : Option Nat) : Except PyExc Element :=
  match waitUntil (wait_time selfTimeout timeout) (element_to_be_clickable page locator) with
  | .ok r => .ok r.2
  | .error e => .error e

/-- `BasePage.click_element`: `wait_for_element_clickable` then
`element.click()`. -/
def click_element (page : Page) (selfTimeout : Nat) (locator : Locator)
    (timeout : Option Nat) : Except PyExc Unit :=
  match wait_for_element_clickable page selfTimeout locator timeout with
  | .ok _ => .ok ()
  | .error e => .error e

/-- `BasePage.send_keys_to_element`: `wait_for_element_visible`, then clear
and type the text verbatim. -/
def send_keys_to_element (page : Page) (selfTimeout : Nat) (locator : Locator)
    (text : String) (timeout : Option Nat) : Except PyExc Unit :=
  match wait_for_element_visible page selfTimeout locator timeout with
  | .ok _ => .ok ()
  | .error e => .error e

/-- `BasePage.get_element_text`: `wait_for_element_visible`, then return
`str(element.text)`. -/
def get_element_text (page : Page) (selfTimeout : Nat) (locator : Locator)
    (timeout : Option Nat) : Except PyExc String :=
  match wait_for_element_visible page selfTimeout locator timeout with
  | .ok e => .ok e.text
  | .error e => .error e

/-- A bare `driver.find_element(*locator)` at tick `t`: first match, or
`NoSuchElementException` when nothing matches right now. -/
def driver_find_element (page : Page) (t : Nat) (locator : Locator) : Except PyExc Element :=
  match (page.dom t locator).head? with
  | some e => .ok e
  | none => .error .noSuchElementException

/-- `BasePage.is_element_present`: an immediate, non-waiting presence check
at the current tick (tick 0); `NoSuchElementException` is converted to
`False`. -/
def is_element_present (page : Page) (locator : Locator) : Except PyExc Bool :=
  match driver_find_element page 0 locator with
  | .ok _ => .ok true
  | .error .noSuchElementException => .ok false
  | .error e => .error e

/-- A page on which the locator never matches anything: the concrete input
used to exercise the timeout paths. -/
def emptyPage : Page := ⟨fun _ _ => []⟩

/-- A concrete locator for the examples. -/
def locX : Locator := ("id", "definitely-does-not-exist")

/-- Python's `str.lower()`, embedded as a character-wise map so that it is
kernel-computable (the framework only lowercases ASCII identifiers). -/
def pyLower (s : String) : String := ⟨s.data.map Char.toLower⟩

/-! ## Environment configuration (`src/utils/env_loader.py`) -/

/-- The process environment: `env key` is `some value` when the variable is
set (possibly to the empty string) and `none` when it is unset. -/
abbrev Env := String → Option String

/-- `EnvironmentConfig.get_optional_env`: `os.getenv(key, default)` returns
the default only when the variable is unset; a present-but-empty value is
returned as the empty string. -/
def get_optional_env (env : Env) (key defaultVal : String) : String :=
  (env key).getD defaultVal

/-- The mode computation in `BasePage.__init__`:
`execution_mode or config.get_optional_env("EXECUTION_MODE", "local")`.
Python's `or` treats both `None` and the empty string as falsy. -/
def resolve_execution_mode (explicit : Option String) (env : Env) : String :=
  match explicit with
  | none => get_optional_env env "EXECUTION_MODE" "local"
  | some s => if s = "" then get_optional_env env "EXECUTION_MODE" "local" else s

/-! ## Python dictionaries

Python `dict`s are embedded as ordered association lists with unique keys.
Assignment (`d[k] = v`, and `dict.update`) overwrites an existing key in
place and appends a new key at the end; a `dict` literal with a duplicated
key applies the assignments left to right, so the later entry wins. -/

/-- Python dict assignment `d[k] = v`. -/
def dictSet {V : Type} (d : List (String × V)) (k : String) (v : V) :
    List (String × V) :=
  if d.any (fun kv => kv.1 == k) then
    d.map (fun kv => if kv.1 == k then (k, v) else kv)
  else d ++ [(k, v)]

/-- Python dict lookup `d.get(k)` returning `None` when absent. -/
def dictGet? {V : Type} (d : List (String × V)) (k : String) : Option V :=
  match d.find? (fun kv => kv.1 == k) with
  | some kv => some kv.2
  | none => none

/-- Python dict lookup with default, `d.get(k, defaultVal)`. -/
def dictGetD {V : Type} (d : List (String × V)) (k : String) (defaultVal : V) : V :=
  (dictGet? d k).getD defaultVal

/-- `d.update(kvs)`: assign every pair of `kvs` into `d` in order. -/
def dictUpdate {V : Type} (d kvs : List (String × V)) : List (String × V) :=
  kvs.foldl (fun acc kv => dictSet acc kv.1 kv.2) d

/-- A Python dict literal: assignments applied left to right into an empty
dict, so a duplicated key keeps its first position but its last value. -/
def pyDictLit {V : Type} (pairs : List (String × V)) : List (String × V) :=
  pairs.foldl (fun acc kv => dictSet acc kv.1 kv.2) []

/-! ## Capability registry (`src/utils/browserstack_config.py`) -/

/-- A capability value: the profiles store strings and booleans. -/
inductive CapVal where
  | str : String → CapVal
  | bool : Bool → CapVal
deriving DecidableEq, Repr

/-- A BrowserStack capability dictionary. -/
abbrev CapDict := List (String × CapVal)

/-- `get_build_name()`: the lazily-computed build tag shared across the run.
`shared` is the `_SHARED_BUILD_NAME` global; the result pairs the returned
name with the new global state. -/
def get_build_name (shared : Option String) (timestamp : String) :
    String × Option String :=
  match shared with
  | some b => (b, some b)
  | none => ("samsung-galaxy-favoriting-" ++ timestamp,
             some ("samsung-galaxy-favoriting-" ++ timestamp))

/-- `BrowserStackCapabilities.get_windows_chrome()`; `buildName` is the value
of `get_build_name()` at call time. -/
def get_windows_chrome (buildName : String) : CapDict :=
  [("browserName", .str "Chrome"),
   ("browserVersion", .str "latest"),
   ("os", .str "Windows"),
   ("osVersion", .str "10"),
   ("sessionName", .str "Samsung Galaxy S20+ Favoriting - Windows 10 Chrome"),
   ("buildName", .str buildName),
   ("projectName", .str "Samsung Galaxy S20+ Cross-Browser Testing"),
   ("local", .bool false),
   ("seleniumVersion", .str "4.15.0"),
   ("resolution", .str "1920x1080"),
   ("browserstack.debug", .bool true),
   ("browserstack.console", .str "info"),
   ("browserstack.networkLogs", .bool true)]

/-- `BrowserStackCapabilities.get_macos_safari()`. -/
def get_macos_safari (buildName : String) : CapDict :=
  [("browserName", .str "Safari"),
   ("browserVersion", .str "latest"),
   ("os", .str "OS X"),
   ("osVersion", .str "Ventura"),
   ("sessionName", .str "Samsung Galaxy S20+ Favoriting - macOS Safari"),
   ("buildName", .str buildName),
   ("projectName", .str "Samsung Galaxy S20+ Cross-Browser Testing"),
   ("local", .bool false),
   ("seleniumVersion", .str "4.15.0"),
   ("resolution", .str "1920x1080"),
   ("browserstack.debug", .bool true),
   ("browserstack.console", .str "info"),
   ("browserstack.networkLogs", .bool true)]

/-- `BrowserStackCapabilities.get_macos_firefox()` (macOS Ventura Firefox). -/
def get_macos_firefox (buildName : String) : CapDict :=
  [("browserName", .str "Firefox"),
   ("browserVersion", .str "latest"),
   ("os", .str "OS X"),
   ("osVersion", .str "Ventura"),
   ("sessionName", .str "Samsung Galaxy S20+ Favoriting - macOS Ventura Firefox"),
   ("buildName", .str buildName),
   ("projectName", .str "Samsung Galaxy S20+ Cross-Browser Testing"),
   ("local", .bool false),
   ("seleniumVersion", .str "4.15.0"),
   ("resolution", .str "1920x1080"),
   ("browserstack.debug", .bool true),
   ("browserstack.console", .str "info"),
   ("browserstack.networkLogs", .bool true)]

/-- `BrowserStackCapabilities.get_macos_monterey_firefox()`. -/
def get_macos_monterey_firefox (buildName : String) : CapDict :=
  [("browserName", .str "Firefox"),
   ("browserVersion", .str "latest"),
   ("os", .str "OS X"),
   ("osVersion", .str "Monterey"),
   ("sessionName", .str "Samsung Galaxy S20+ Favoriting - macOS Monterey Firefox"),
   ("buildName", .str buildName),
   ("projectName", .str "Samsung Galaxy S20+ Cross-Browser Testing"),
   ("local", .bool false),
   ("seleniumVersion", .str "4.15.0"),
   ("resolution", .str "1920x1080"),
   ("browserstack.debug", .bool true),
   ("browserstack.console", .str "info"),
   ("browserstack.networkLogs", .bool true)]

/-- `BrowserStackCapabilities.get_samsung_galaxy_s22()`. -/
def get_samsung_galaxy_s22 (buildName : String) : CapDict :=
  [("platformName", .str "Android"),
   ("platformVersion", .str "12.0"),
   ("deviceName", .str "Samsung Galaxy S22"),
   ("browserName", .str "Chrome"),
   ("sessionName", .str "Samsung Galaxy S20+ Favoriting - Samsung Galaxy S22"),
   ("buildName", .str buildName),
   ("projectName", .str "Samsung Galaxy S20+ Cross-Browser Testing"),
   ("local", .bool false),
   ("browserstack.debug", .bool true),
   ("browserstack.console", .str "info"),
   ("browserstack.networkLogs", .bool true),
   ("browserstack.appiumLogs", .bool true)]

/-! ## Capability resolution (`BasePage._get_capability_by_name`) -/

/-- The keys of the `capability_methods` dict, in insertion order. -/
def capability_method_names : List String :=
  ["Windows_10_Chrome", "macOS_Safari", "macOS_Ventura_Firefox",
   "macOS_Monterey_Firefox", "Samsung_Galaxy_S22_Chrome"]

/-- `list(capability_methods.keys())` as Python formats it inside the
f-string of the unknown-name error. -/
def available_names_repr : String :=
  "[\x27Windows_10_Chrome\x27, \x27macOS_Safari\x27, \x27macOS_Ventura_Firefox\x27, \x27macOS_Monterey_Firefox\x27, \x27Samsung_Galaxy_S22_Chrome\x27]"

/-- The message of the `ValueError` raised for an unregistered capability
name. -/
def unknown_capability_message (name : String) : String :=
  "Unknown capability name: " ++ name ++ ". Available: " ++ available_names_repr

/-- `BasePage._get_capability_by_name`: dispatch on the registered names,
raising `ValueError` with the list of valid names otherwise. -/
def _get_capability_by_name (buildName : String) (name : String) :
    Except PyExc CapDict :=
  if name = "Windows_10_Chrome" then .ok (get_windows_chrome buildName)
  else if name = "macOS_Safari" then .ok (get_macos_safari buildName)
  else if name = "macOS_Ventura_Firefox" then .ok (get_macos_firefox buildName)
  else if name = "macOS_Monterey_Firefox" then .ok (get_macos_monterey_firefox buildName)
  else if name = "Samsung_Galaxy_S22_Chrome" then .ok (get_samsung_galaxy_s22 buildName)
  else .error (.valueError (unknown_capability_message name))

/-! ## Driver creation (`BasePage._create_driver` and its two paths) -/

/-- A local WebDriver instance: which browser binary it drives and its
current window size.  `webdriver.Chrome()` / `webdriver.Firefox()` are
external constructors, so freshly-created drivers are passed in as
parameters wherever the embedding needs one. -/
structure LocalDriver where
  browserKind : String
  width : Nat
  height : Nat
deriving DecidableEq, Repr

/-- `driver.set_window_size(w, h)`. -/
def set_window_size (d : LocalDriver) (w h : Nat) : LocalDriver :=
  { d with width := w, height := h }

/-- The `ValueError` raised by `_create_local_driver` for a browser outside
the supported set; the spec calls this kind `UnsupportedBrowserError`. -/
def UnsupportedBrowserError (browser : String) : PyExc :=
  .valueError ("Unsupported local browser: " ++ browser)

/-- `BasePage._create_local_driver`: dispatch on `self.browser.lower()`,
then normalize the window size to 1920×1080.  `freshChrome` / `freshFirefox`
stand for the drivers returned by the external Selenium constructors. -/
def _create_local_driver (browser : String) (freshChrome freshFirefox : LocalDriver) :
    Except PyExc LocalDriver :=
  if pyLower browser = "chrome" then .ok (set_window_size freshChrome 1920 1080)
  else if pyLower browser = "firefox" then .ok (set_window_size freshFirefox 1920 1080)
  else .error (UnsupportedBrowserError browser)

/-- `BROWSERSTACK_CONFIG["hub_url"]`. -/
def BROWSERSTACK_hub_url : String := "https://hub-cloud.browserstack.com/wd/hub"

/-- The `browser_mapping` dict literal in `_create_browserstack_driver`,
exactly as written in the source — note the duplicated `"firefox"` key. -/
def browser_mapping_pairs : List (String × String) :=
  [("chrome", "Windows_10_Chrome"),
   ("safari", "macOS_Safari"),
   ("firefox", "macOS_Monterey_Firefox"),
   ("firefox", "macOS_Ventura_Firefox")]

/-- The `browser_mapping` dict as Python builds it: the duplicate key is
collapsed, the later value winning. -/
def browser_mapping : List (String × String) := pyDictLit browser_mapping_pairs

/-- `browser_mapping.get(self.browser.lower(), "Windows_10_Chrome")`. -/
def default_capability_name (browser : String) : String :=
  dictGetD browser_mapping (pyLower browser) "Windows_10_Chrome"

/-- Python truthiness of `self.capability_name` (an `Optional[str]`):
`None` and the empty string are falsy. -/
def pyTruthyStr : Option String → Bool
  | none => false
  | some s => s != ""

/-- The options-object family chosen from `capabilities.get("browserName",
"Chrome").lower()`: Chrome options for "chrome", Firefox options for
"firefox", Chrome options as the default for anything else. -/
def options_family (capabilities : CapDict) : String :=
  let browser_name := pyLower (match dictGet? capabilities "browserName" with
    | some (.str s) => s
    | some (.bool _) => "Chrome"
    | none => "Chrome")
  if browser_name = "chrome" then "chrome"
  else if browser_name = "firefox" then "firefox"
  else "chrome"

/-- A remote WebDriver session as `webdriver.Remote(...)` would be opened:
the hub endpoint, the options family the capabilities were poured into, and
the full capability payload sent over the wire. -/
structure RemoteDriver where
  hub_url : String
  optionsFamily : String
  capabilities : CapDict
deriving DecidableEq, Repr

/-- `BasePage._create_browserstack_driver`: resolve the capability profile
(explicit name if truthy, otherwise the browser-mapping default), merge in
the two authentication keys, then open the remote session with the merged
payload.  `username` / `access_key` are `config.browserstack_username` /
`config.browserstack_access_key`. -/
def _create_browserstack_driver (buildName : String) (browser : String)
    (capability_name : Option String) (username access_key : String) :
    Except PyExc RemoteDriver :=
  let resolved :=
    if pyTruthyStr capability_name then
      _get_capability_by_name buildName (capability_name.getD "")
    else
      _get_capability_by_name buildName (default_capability_name browser)
  match resolved with
  | .error e => .error e
  | .ok capabilities =>
    let capabilities := dictUpdate capabilities
      [("browserstack.user", .str username), ("browserstack.key", .str access_key)]
    .ok { hub_url := BROWSERSTACK_hub_url,
          optionsFamily := options_family capabilities,
          capabilities := capabilities }

/-- Either kind of driver `_create_driver` can return. -/
inductive Driver where
  | localD : LocalDriver → Driver
  | remoteD : RemoteDriver → Driver
deriving DecidableEq, Repr

/-- The `ValueError` raised by `_create_driver` for an unrecognized mode;
the spec calls this kind `UnsupportedModeError`. -/
def UnsupportedModeError (mode : String) : PyExc :=
  .valueError ("Unsupported execution mode: " ++ mode)

/-- `BasePage._create_driver`: case-insensitive dispatch on the resolved
execution mode. -/
def _create_driver (execution_mode browser : String) (capability_name : Option String)
    (buildName username access_key : String) (freshChrome freshFirefox : LocalDriver) :
    Except PyExc Driver :=
  if pyLower execution_mode = "local" then
    match _create_local_driver browser freshChrome freshFirefox with
    | .ok d => .ok (.localD d)
    | .error e => .error e
  else if pyLower execution_mode = "browserstack" then
    match _create_browserstack_driver buildName browser capability_name username access_key with
    | .ok d => .ok (.remoteD d)
    | .error e => .error e
  else .error (UnsupportedModeError execution_mode)

/-- Driver creation as `BasePage.__init__` performs it: resolve the mode
from the explicit argument, the ambient `EXECUTION_MODE` variable or the
default, then dispatch. -/
def basePage_create_driver (explicit : Option String) (env : Env) (browser : String)
    (capability_name : Option String) (buildName username access_key : String)
    (freshChrome freshFirefox : LocalDriver) : Except PyExc Driver :=
  _create_driver (resolve_execution_mode explicit env) browser capability_name
    buildName username access_key freshChrome freshFirefox

/-! ## Session teardown (`BasePage.close`) -/

/-- The underlying driver handle as `close` sees it.  `driver.quit()` shuts
the session down; Selenium's local-driver `quit` swallows its own errors, so
it is modeled as a total state update. -/
structure SessionDriver where
  mode : String
  closed : Bool
deriving DecidableEq, Repr

/-- `driver.quit()`. -/
def driver_quit (d : SessionDriver) : SessionDriver := { d with closed := true }

/-- The attribute state of a `BasePage` as `close` observes it:
`driver = none` models both a missing `driver` attribute (creation raised
before assignment, the `hasattr` guard) and `self.driver` being falsy. -/
structure BasePageState where
  execution_mode : String
  timeout : Nat
  driver : Option SessionDriver
deriving DecidableEq, Repr

/-- `BasePage.close`: `if hasattr(self, "driver") and self.driver:
self.driver.quit()`.  The method mutates nothing else and returns normally
in every case (it is a total function of the state). -/
def close (s : BasePageState) : BasePageState :=
  match s.driver with
  | none => s
  | some d => { s with driver := some (driver_quit d) }

/-- A session is `Closed` (terminal) when its driver either was never
created or has already been quit. -/
def sessionClosed (s : BasePageState) : Prop :=
  s.driver = none ∨ ∃ d, s.driver = some d ∧ d.closed = true

instance (s : BasePageState) : Decidable (sessionClosed s) := by
  unfold sessionClosed
  cases h : s.driver with
  | none => exact .isTrue (.inl rfl)
  | some d =>
    cases hc : d.closed with
    | true => exact .isTrue (.inr ⟨d, rfl, hc⟩)
    | false =>
      refine .isFalse ?_
      rintro (h1 | ⟨d2, h2, h3⟩)
      · simp at h1
      · rw [Option.some_inj] at h2
        subst h2
        simp [hc] at h3

/-! ## Auxiliary concrete data for the theorems -/

/-- The exception kind an operation surfaced, if any. -/
def raisedKind {α : Type} : Except PyExc α → Option PyExc
  | .ok _ => none
  | .error e => some e

/-- A page on which every locator always matches one displayed, enabled
element. -/
def visiblePage : Page := ⟨fun _ _ => [{ eid := 1, displayed := true, enabled := true, text := "ok" }]⟩

/-- A `BasePage` whose driver has already been quit. -/
def closedState : BasePageState :=
  { execution_mode := "local", timeout := 30, driver := some { mode := "local", closed := true } }

/-- A `BasePage` whose driver attribute was never assigned (creation
raised). -/
def neverOpenedState : BasePageState :=
  { execution_mode := "local", timeout := 30, driver := none }

/-- A freshly constructed local Chrome driver, before the window resize. -/
def freshChromeEx : LocalDriver := { browserKind := "chrome", width := 800, height := 600 }

/-- A freshly constructed local Firefox driver, before the window resize. -/
def freshFirefoxEx : LocalDriver := { browserKind := "firefox", width := 800, height := 600 }

/-- Substring containment on strings, stated by explicit decomposition. -/
def substringOf (needle haystack : String) : Prop :=
  ∃ pre post, haystack = pre ++ needle ++ post

/-! ## Shared lemmas -/

theorem beq_false_of_ne {a b : String} (h : ¬ b = a) : (a == b) = false :=
  beq_eq_false_iff_ne.mpr (fun hh => h hh.symm)

theorem beq_true_of_eq {a b : String} (h : b = a) : (a == b) = true :=
  beq_iff_eq.mpr h.symm

/-- A wait whose condition stays `none` through the whole window raises
`TimeoutException`. -/
theorem waitUntil_timeout {α : Type} (T : Nat) (cond : Nat → Option α)
    (h : ∀ t, t ≤ T → cond t = none) :
    waitUntil T cond = .error .timeoutException := by
  unfold waitUntil
  have hn : (List.range (T + 1)).findSome? (fun t => (cond t).map (fun a => (t, a))) = none := by
    rw [List.findSome?_eq_none_iff]
    intro t ht
    rw [h t (Nat.lt_succ_iff.mp (List.mem_range.mp ht))]
    rfl
  rw [hn]

/-- A wait whose condition fires at some tick inside the window returns a
success rather than raising. -/
theorem waitUntil_ok {α : Type} (T : Nat) (cond : Nat → Option α)
    (h : ∃ t, t ≤ T ∧ (cond t).isSome) :
    ∃ r, waitUntil T cond = .ok r := by
  unfold waitUntil
  obtain ⟨t, ht, hs⟩ := h
  have hi : ((List.range (T + 1)).findSome? (fun t => (cond t).map (fun a => (t, a)))).isSome := by
    rw [List.findSome?_isSome_iff]
    refine ⟨t, List.mem_range.mpr (Nat.lt_succ_of_le ht), ?_⟩
    cases hc : cond t with
    | none => rw [hc] at hs; simp at hs
    | some a => simp [hc]
  obtain ⟨r, hr⟩ := Option.isSome_iff_exists.mp hi
  exact ⟨r, by rw [hr]⟩

/-- Substring containment is preserved by prepending. -/
theorem substringOf_append_left (needle tail : String) (h : substringOf needle tail)
    (head : String) : substringOf needle (head ++ tail) := by
  obtain ⟨pre, post, hp⟩ := h
  refine ⟨head ++ pre, post, ?_⟩
  rw [hp]
  simp [String.append_assoc]

/-- Every registered capability name appears verbatim inside the Python
repr of `list(capability_methods.keys())`. -/
theorem registered_names_in_available_repr :
    ∀ r ∈ capability_method_names, substringOf r available_names_repr := by
  intro r hr
  fin_cases hr
  · exact ⟨"[\x27", "\x27, \x27macOS_Safari\x27, \x27macOS_Ventura_Firefox\x27, \x27macOS_Monterey_Firefox\x27, \x27Samsung_Galaxy_S22_Chrome\x27]", by decide⟩
  · exact ⟨"[\x27Windows_10_Chrome\x27, \x27", "\x27, \x27macOS_Ventura_Firefox\x27, \x27macOS_Monterey_Firefox\x27, \x27Samsung_Galaxy_S22_Chrome\x27]", by decide⟩
  · exact ⟨"[\x27Windows_10_Chrome\x27, \x27macOS_Safari\x27, \x27", "\x27, \x27macOS_Monterey_Firefox\x27, \x27Samsung_Galaxy_S22_Chrome\x27]", by decide⟩
  · exact ⟨"[\x27Windows_10_Chrome\x27, \x27macOS_Safari\x27, \x27macOS_Ventura_Firefox\x27, \x27", "\x27, \x27Samsung_Galaxy_S22_Chrome\x27]", by decide⟩
  · exact ⟨"[\x27Windows_10_Chrome\x27, \x27macOS_Safari\x27, \x27macOS_Ventura_Firefox\x27, \x27macOS_Monterey_Firefox\x27, \x27", "\x27]", by decide⟩

/-- The duplicated `"firefox"` literal key collapses: the built dict has
three entries and the later firefox value won. -/
theorem browser_mapping_collapsed :
    browser_mapping = [("chrome", "Windows_10_Chrome"), ("safari", "macOS_Safari"),
                       ("firefox", "macOS_Ventura_Firefox")] := by decide

/-- Closed form of the remote default-profile choice. -/
theorem default_capability_name_cases (b : String) :
    default_capability_name b =
      (if pyLower b = "chrome" then "Windows_10_Chrome"
       else if pyLower b = "safari" then "macOS_Safari"
       else if pyLower b = "firefox" then "macOS_Ventura_Firefox"
       else "Windows_10_Chrome") := by
  unfold default_capability_name dictGetD dictGet?
  rw [browser_mapping_collapsed]
  by_cases h1 : pyLower b = "chrome"
  · simp [List.find?, beq_true_of_eq h1, h1]
  · by_cases h2 : pyLower b = "safari"
    · simp [List.find?, beq_false_of_ne h1, beq_true_of_eq h2, h1, h2]
    · by_cases h3 : pyLower b = "firefox"
      · simp [List.find?, beq_false_of_ne h1, beq_false_of_ne h2, beq_true_of_eq h3, h1, h2, h3]
      · simp [List.find?, beq_false_of_ne h1, beq_false_of_ne h2, beq_false_of_ne h3, h1, h2, h3]

/-- The shared build tag is computed once: after any call, later calls
return the same name whatever the clock then says. -/
theorem get_build_name_stable (shared : Option String) (ts1 ts2 : String) :
    (get_build_name ((get_build_name shared ts1).2) ts2).1 = (get_build_name shared ts1).1 := by
  cases shared <;> rfl

/-! ## Claim theorems -/

/-- C1 counterexample: the claim says `find_element`, `wait_for_element_visible`
and `wait_for_element_clickable` raise their own distinct error kinds on
timeout so the caller can tell the three failure causes apart.  On a page
where the locator never matches, all three surface the very same
`TimeoutException` kind (the `except TimeoutException: ... raise` blocks
re-raise the wait's exception unchanged), so the kinds coincide instead of
being pairwise distinct. -/
theorem find_visible_clickable_share_timeout_kind :
    raisedKind (find_element emptyPage 3 locX none) = some PyExc.timeoutException ∧
    raisedKind (wait_for_element_visible emptyPage 3 locX none) = some PyExc.timeoutException ∧
    raisedKind (wait_for_element_clickable emptyPage 3 locX none) = some PyExc.timeoutException ∧
    raisedKind (find_element emptyPage 3 locX none) =
      raisedKind (wait_for_element_visible emptyPage 3 locX none) ∧
    raisedKind (wait_for_element_visible emptyPage 3 locX none) =
      raisedKind (wait_for_element_clickable emptyPage 3 locX none) :=
  ⟨rfl, rfl, rfl, rfl, rfl⟩

/-- C1 (amended): for every page, locator and timeout override, each of
`find_element`, `wait_for_element_visible` and `wait_for_element_clickable`
raises once the configured timeout window elapses with its condition never
met — but all three raise the same `TimeoutException` kind — and none of
them raises if its condition is met at some poll tick inside the window. -/
theorem wait_ops_timeout_and_early_success (page : Page) (selfT : Nat) (loc : Locator)
    (tmo : Option Nat) :
    ((∀ t, t ≤ wait_time selfT tmo → presence_of_element_located page loc t = none) →
       find_element page selfT loc tmo = .error .timeoutException) ∧
    ((∃ t, t ≤ wait_time selfT tmo ∧ (presence_of_element_located page loc t).isSome) →
       ∃ e, find_element page selfT loc tmo = .ok e) ∧
    ((∀ t, t ≤ wait_time selfT tmo → visibility_of_element_located page loc t = none) →
       wait_for_element_visible page selfT loc tmo = .error .timeoutException) ∧
    ((∃ t, t ≤ wait_time selfT tmo ∧ (visibility_of_element_located page loc t).isSome) →
       ∃ e, wait_for_element_visible page selfT loc tmo = .ok e) ∧
    ((∀ t, t ≤ wait_time selfT tmo → element_to_be_clickable page loc t = none) →
       wait_for_element_clickable page selfT loc tmo = .error .timeoutException) ∧
    ((∃ t, t ≤ wait_time selfT tmo ∧ (element_to_be_clickable page loc t).isSome) →
       ∃ e, wait_for_element_clickable page selfT loc tmo = .ok e) := by
  refine ⟨?_, ?_, ?_, ?_, ?_, ?_⟩
  · intro h
    unfold find_element
    rw [waitUntil_timeout _ _ h]
  · intro h
    obtain ⟨r, hr⟩ := waitUntil_ok _ _ h
    unfold find_element
    rw [hr]
    exact ⟨r.2, rfl⟩
  · intro h
    unfold wait_for_element_visible
    rw [waitUntil_timeout _ _ h]
  · intro h
    obtain ⟨r, hr⟩ := waitUntil_ok _ _ h
    unfold wait_for_element_visible
    rw [hr]
    exact ⟨r.2, rfl⟩
  · intro h
    unfold wait_for_element_clickable
    rw [waitUntil_timeout _ _ h]
  · intro h
    obtain ⟨r, hr⟩ := waitUntil_ok _ _ h
    unfold wait_for_element_clickable
    rw [hr]
    exact ⟨r.2, rfl⟩

/-- C1 witness: the amended theorem applied at concrete inputs — a timeout
on the never-matching page and an early success on the always-visible
page. -/
theorem wait_ops_timeout_and_early_success_witness :
    find_element emptyPage 2 locX none = .error PyExc.timeoutException ∧
    (∃ e, wait_for_element_clickable visiblePage 2 locX none = .ok e) :=
  ⟨(wait_ops_timeout_and_early_success emptyPage 2 locX none).1 (fun _ _ => rfl),
   (wait_ops_timeout_and_early_success visiblePage 2 locX none).2.2.2.2.2
     ⟨0, Nat.zero_le 2, rfl⟩⟩

/-- C2: for a locator that matches nothing at any time, `find_elements`
returns the empty list after its timeout instead of raising and
`is_element_present` returns `False` without raising (and without any
wait: it reads the DOM at the current instant only); every other
locator-taking interaction operation surfaces an error on the same
input. -/
theorem absent_locator_nonerror_only_two (page : Page) (selfT : Nat) (loc : Locator)
    (tmo : Option Nat) (text : String) (h : ∀ t, page.dom t loc = []) :
    find_elements page selfT loc tmo = .ok [] ∧
    is_element_present page loc = .ok false ∧
    find_element page selfT loc tmo = .error .timeoutException ∧
    wait_for_element_visible page selfT loc tmo = .error .timeoutException ∧
    wait_for_element_clickable page selfT loc tmo = .error .timeoutException ∧
    click_element page selfT loc tmo = .error .timeoutException ∧
    send_keys_to_element page selfT loc text tmo = .error .timeoutException ∧
    get_element_text page selfT loc tmo = .error .timeoutException := by
  have hp : ∀ t, t ≤ wait_time selfT tmo → presence_of_element_located page loc t = none := by
    intro t _
    unfold presence_of_element_located
    rw [h t]
    rfl
  have hv : ∀ t, t ≤ wait_time selfT tmo → visibility_of_element_located page loc t = none := by
    intro t _
    unfold visibility_of_element_located
    rw [h t]
    rfl
  have hc : ∀ t, t ≤ wait_time selfT tmo → element_to_be_clickable page loc t = none := by
    intro t _
    unfold element_to_be_clickable
    rw [h t]
    rfl
  have hwv : wait_for_element_visible page selfT loc tmo = .error .timeoutException := by
    unfold wait_for_element_visible
    rw [waitUntil_timeout _ _ hv]
  have hwc : wait_for_element_clickable page selfT loc tmo = .error .timeoutException := by
    unfold wait_for_element_clickable
    rw [waitUntil_timeout _ _ hc]
  refine ⟨?_, ?_, ?_, hwv, hwc, ?_, ?_, ?_⟩
  · unfold find_elements
    rw [waitUntil_timeout _ _ hp]
  · unfold is_element_present driver_find_element
    rw [h 0]
    rfl
  · unfold find_element
    rw [waitUntil_timeout _ _ hp]
  · unfold click_element
    rw [hwc]
  · unfold send_keys_to_element
    rw [hwv]
  · unfold get_element_text
    rw [hwv]

/-- C2 witness: the theorem applied to the never-matching page. -/
theorem absent_locator_nonerror_only_two_witness :
    find_elements emptyPage 5 locX none = .ok [] ∧
    is_element_present emptyPage locX = .ok false ∧
    find_element emptyPage 5 locX none = .error PyExc.timeoutException :=
  ⟨(absent_locator_nonerror_only_two emptyPage 5 locX none "txt" (fun _ => rfl)).1,
   (absent_locator_nonerror_only_two emptyPage 5 locX none "txt" (fun _ => rfl)).2.1,
   (absent_locator_nonerror_only_two emptyPage 5 locX none "txt" (fun _ => rfl)).2.2.1⟩

/-- C3: closing an already-closed session (its driver quit already) or a
session whose driver attribute was never assigned leaves the state exactly
as it was, for any number of repeated calls.  `close` is a total function
of the state — it returns normally (raises nothing) in every case. -/
theorem close_idempotent_on_closed (s : BasePageState) (h : sessionClosed s) :
    close s = s ∧ ∀ n : Nat, Nat.iterate close n s = s := by
  have h1 : close s = s := by
    obtain ⟨em, tmo, dr⟩ := s
    cases dr with
    | none => rfl
    | some d =>
      obtain ⟨m, c⟩ := d
      rcases h with h | ⟨d2, hd2, hc2⟩
      · exact absurd h (by simp)
      · have hdc : ({ mode := m, closed := c } : SessionDriver) = d2 := Option.some_inj.mp hd2
        have hct : c = true := by
          rw [← hdc] at hc2
          exact hc2
        subst hct
        rfl
  refine ⟨h1, ?_⟩
  intro n
  induction n with
  | zero => rfl
  | succ k ih =>
    rw [Function.iterate_succ_apply, h1]
    exact ih

/-- C3 witness: the theorem applied to a concrete already-quit session and
to a concrete never-opened session, with three stacked calls. -/
theorem close_idempotent_on_closed_witness :
    close closedState = closedState ∧
    Nat.iterate close 3 closedState = closedState ∧
    close neverOpenedState = neverOpenedState :=
  ⟨(close_idempotent_on_closed closedState
      (Or.inr ⟨{ mode := "local", closed := true }, rfl, rfl⟩)).1,
   (close_idempotent_on_closed closedState
      (Or.inr ⟨{ mode := "local", closed := true }, rfl, rfl⟩)).2 3,
   (close_idempotent_on_closed neverOpenedState (Or.inl rfl)).1⟩

/-- C4: the execution mode is the explicit argument when one is given (and
truthy), otherwise the ambient `EXECUTION_MODE` value, otherwise the
default `"local"`; the resolved string is matched case-insensitively
against the two recognized modes, and any resolved string matching neither
makes driver creation raise the unsupported-mode `ValueError` (the kind the
spec names `UnsupportedModeError`). -/
theorem mode_resolution_and_unsupported_error (explicit : Option String) (env : Env)
    (browser : String) (cn : Option String) (bn u k : String) (fc ff : LocalDriver) :
    (∀ s, explicit = some s → s ≠ "" → resolve_execution_mode explicit env = s) ∧
    (explicit = none → env "EXECUTION_MODE" = none →
       resolve_execution_mode explicit env = "local") ∧
    (explicit = none → ∀ v, env "EXECUTION_MODE" = some v →
       resolve_execution_mode explicit env = v) ∧
    (pyLower (resolve_execution_mode explicit env) ≠ "local" →
     pyLower (resolve_execution_mode explicit env) ≠ "browserstack" →
       basePage_create_driver explicit env browser cn bn u k fc ff =
         .error (UnsupportedModeError (resolve_execution_mode explicit env))) := by
  refine ⟨?_, ?_, ?_, ?_⟩
  · intro s hs hne
    rw [hs]
    show (if s = "" then get_optional_env env "EXECUTION_MODE" "local" else s) = s
    rw [if_neg hne]
  · intro hn he
    rw [hn]
    unfold resolve_execution_mode get_optional_env
    rw [he]
    rfl
  · intro hn v hv
    rw [hn]
    unfold resolve_execution_mode get_optional_env
    rw [hv]
    rfl
  · intro h1 h2
    unfold basePage_create_driver _create_driver
    rw [if_neg h1, if_neg h2]

/-- C4 witness: an explicit mode `"cloud"` resolves to itself and driver
creation raises the unsupported-mode error. -/
theorem mode_resolution_and_unsupported_error_witness :
    basePage_create_driver (some "cloud") (fun _ => none) "chrome" none "b" "u" "k"
      freshChromeEx freshFirefoxEx = .error (UnsupportedModeError "cloud") :=
  (mode_resolution_and_unsupported_error (some "cloud") (fun _ => none) "chrome" none
      "b" "u" "k" freshChromeEx freshFirefoxEx).2.2.2 (by decide) (by decide)

/-- C5: resolving a name outside the registered capability profiles raises
the `ValueError` whose message lists every registered name (each appears
verbatim in the message), and resolving any registered name returns its
profile. -/
theorem capability_lookup_errors_list_names (bn name : String) :
    (name ∉ capability_method_names →
       _get_capability_by_name bn name =
         .error (.valueError (unknown_capability_message name)) ∧
       ∀ r ∈ capability_method_names, substringOf r (unknown_capability_message name)) ∧
    (name ∈ capability_method_names → ∃ d, _get_capability_by_name bn name = .ok d) := by
  constructor
  · intro h
    simp only [capability_method_names, List.mem_cons, List.not_mem_nil, or_false,
      not_or] at h
    obtain ⟨h1, h2, h3, h4, h5⟩ := h
    constructor
    · unfold _get_capability_by_name
      rw [if_neg h1, if_neg h2, if_neg h3, if_neg h4, if_neg h5]
    · intro r hr
      have hm : unknown_capability_message name =
          ("Unknown capability name: " ++ name ++ ". Available: ") ++ available_names_repr :=
        rfl
      rw [hm]
      exact substringOf_append_left r available_names_repr
        (registered_names_in_available_repr r hr) _
  · intro h
    fin_cases h
    · exact ⟨get_windows_chrome bn, rfl⟩
    · exact ⟨get_macos_safari bn, rfl⟩
    · exact ⟨get_macos_firefox bn, rfl⟩
    · exact ⟨get_macos_monterey_firefox bn, rfl⟩
    · exact ⟨get_samsung_galaxy_s22 bn, rfl⟩

/-- C5 witness: the unknown name used by the repository's own test, plus a
registered one. -/
theorem capability_lookup_errors_list_names_witness :
    _get_capability_by_name "b" "Invalid_Capability" =
      .error (.valueError (unknown_capability_message "Invalid_Capability")) ∧
    substringOf "macOS_Monterey_Firefox" (unknown_capability_message "Invalid_Capability") ∧
    (∃ d, _get_capability_by_name "b" "Windows_10_Chrome" = .ok d) :=
  ⟨((capability_lookup_errors_list_names "b" "Invalid_Capability").1 (by decide)).1,
   ((capability_lookup_errors_list_names "b" "Invalid_Capability").1 (by decide)).2
     "macOS_Monterey_Firefox" (by decide),
   (capability_lookup_errors_list_names "b" "Windows_10_Chrome").2 (by decide)⟩

/-- C6: the remote default mapping sends chrome, safari and firefox to
fixed profile names and every other browser to the fallback profile
`"Windows_10_Chrome"`; the literal carries a duplicate `"firefox"` key
whose later entry (`macOS_Ventura_Firefox`) overrides the earlier one, so
`macOS_Monterey_Firefox` is unreachable through this path. -/
theorem default_browser_mapping_shadowing :
    ("firefox", "macOS_Monterey_Firefox") ∈ browser_mapping_pairs ∧
    ("firefox", "macOS_Ventura_Firefox") ∈ browser_mapping_pairs ∧
    browser_mapping = [("chrome", "Windows_10_Chrome"), ("safari", "macOS_Safari"),
                       ("firefox", "macOS_Ventura_Firefox")] ∧
    default_capability_name "chrome" = "Windows_10_Chrome" ∧
    default_capability_name "safari" = "macOS_Safari" ∧
    default_capability_name "firefox" = "macOS_Ventura_Firefox" ∧
    (∀ b : String, pyLower b ≠ "chrome" → pyLower b ≠ "safari" → pyLower b ≠ "firefox" →
       default_capability_name b = "Windows_10_Chrome") ∧
    (∀ b : String, default_capability_name b ≠ "macOS_Monterey_Firefox") := by
  refine ⟨by decide, by decide, browser_mapping_collapsed, by decide, by decide, by decide,
    ?_, ?_⟩
  · intro b h1 h2 h3
    rw [default_capability_name_cases b, if_neg h1, if_neg h2, if_neg h3]
  · intro b
    rw [default_capability_name_cases b]
    split_ifs <;> decide

/-- C6 witness: an unrecognized browser name falls back to the designated
default and can never reach the Monterey firefox profile. -/
theorem default_browser_mapping_shadowing_witness :
    default_capability_name "edge" = "Windows_10_Chrome" ∧
    default_capability_name "edge" ≠ "macOS_Monterey_Firefox" :=
  ⟨default_browser_mapping_shadowing.2.2.2.2.2.2.1 "edge" (by decide) (by decide) (by decide),
   default_browser_mapping_shadowing.2.2.2.2.2.2.2 "edge"⟩

/-- C7: local driver creation raises the unsupported-browser `ValueError`
for any browser outside {chrome, firefox} (matched case-insensitively),
and every successfully created local driver has its window normalized to
1920×1080. -/
theorem local_driver_unsupported_and_viewport (browser : String) (fc ff : LocalDriver) :
    (pyLower browser ≠ "chrome" → pyLower browser ≠ "firefox" →
       _create_local_driver browser fc ff = .error (UnsupportedBrowserError browser)) ∧
    (∀ d, _create_local_driver browser fc ff = .ok d → d.width = 1920 ∧ d.height = 1080) := by
  constructor
  · intro h1 h2
    unfold _create_local_driver
    rw [if_neg h1, if_neg h2]
  · intro d hd
    unfold _create_local_driver at hd
    by_cases h1 : pyLower browser = "chrome"
    · rw [if_pos h1] at hd
      injection hd with hde
      subst hde
      exact ⟨rfl, rfl⟩
    · by_cases h2 : pyLower browser = "firefox"
      · rw [if_neg h1, if_pos h2] at hd
        injection hd with hde
        subst hde
        exact ⟨rfl, rfl⟩
      · rw [if_neg h1, if_neg h2] at hd
        exact Except.noConfusion hd

/-- C7 witness: `"safari"` is rejected with the unsupported-browser error;
a successful Chrome creation ends at 1920×1080. -/
theorem local_driver_unsupported_and_viewport_witness :
    _create_local_driver "safari" freshChromeEx freshFirefoxEx =
      .error (UnsupportedBrowserError "safari") ∧
    ((set_window_size freshChromeEx 1920 1080).width = 1920 ∧
     (set_window_size freshChromeEx 1920 1080).height = 1080) :=
  ⟨(local_driver_unsupported_and_viewport "safari" freshChromeEx freshFirefoxEx).1
     (by decide) (by decide),
   (local_driver_unsupported_and_viewport "chrome" freshChromeEx freshFirefoxEx).2
     (set_window_size freshChromeEx 1920 1080) rfl⟩

/-- C8: for every registered profile name, remote session creation resolves
the profile once and sends exactly that profile with the two authentication
keys appended at the end (they are absent from the resolved profile, so the
`update` adds them without touching any stored entry), and resolving the
same name again — with the build tag the run already computed — returns the
same authentication-free profile the registry produced before the merge. -/
theorem remote_merge_auth_preserves_registry (bn ts browser u k name : String)
    (h : name ∈ capability_method_names) :
    ∃ caps,
      _get_capability_by_name bn name = .ok caps ∧
      dictGet? caps "browserstack.user" = none ∧
      dictGet? caps "browserstack.key" = none ∧
      _create_browserstack_driver bn browser (some name) u k = .ok
        { hub_url := BROWSERSTACK_hub_url,
          optionsFamily := options_family
            (caps ++ [("browserstack.user", CapVal.str u), ("browserstack.key", CapVal.str k)]),
          capabilities :=
            caps ++ [("browserstack.user", CapVal.str u), ("browserstack.key", CapVal.str k)] } ∧
      _get_capability_by_name (get_build_name (some bn) ts).1 name = .ok caps := by
  fin_cases h
  · exact ⟨get_windows_chrome bn, rfl, rfl, rfl, rfl, rfl⟩
  · exact ⟨get_macos_safari bn, rfl, rfl, rfl, rfl, rfl⟩
  · exact ⟨get_macos_firefox bn, rfl, rfl, rfl, rfl, rfl⟩
  · exact ⟨get_macos_monterey_firefox bn, rfl, rfl, rfl, rfl, rfl⟩
  · exact ⟨get_samsung_galaxy_s22 bn, rfl, rfl, rfl, rfl, rfl⟩

/-- C8 witness: the theorem applied to the safari profile with concrete
credentials. -/
theorem remote_merge_auth_preserves_registry_witness :
    ∃ caps,
      _get_capability_by_name "build-1" "macOS_Safari" = .ok caps ∧
      dictGet? caps "browserstack.user" = none ∧
      dictGet? caps "browserstack.key" = none ∧
      _create_browserstack_driver "build-1" "chrome" (some "macOS_Safari") "user" "key" = .ok
        { hub_url := BROWSERSTACK_hub_url,
          optionsFamily := options_family
            (caps ++ [("browserstack.user", CapVal.str "user"), ("browserstack.key", CapVal.str "key")]),
          capabilities :=
            caps ++ [("browserstack.user", CapVal.str "user"), ("browserstack.key", CapVal.str "key")] } ∧
      _get_capability_by_name (get_build_name (some "build-1") "ts").1 "macOS_Safari" = .ok caps :=
  remote_merge_auth_preserves_registry "build-1" "ts" "chrome" "user" "key" "macOS_Safari"
    (by decide)

/-- C9: passing an explicit timeout override of 0 to any wait-based
interaction operation behaves identically to passing no override — the
falsy `0` makes `timeout or self.timeout` select the session's configured
default timeout. -/
theorem timeout_zero_equals_default (page : Page) (selfT : Nat) (loc : Locator)
    (text : String) :
    wait_time selfT (some 0) = selfT ∧
    find_element page selfT loc (some 0) = find_element page selfT loc none ∧
    find_elements page selfT loc (some 0) = find_elements page selfT loc none ∧
    wait_for_element_visible page selfT loc (some 0) =
      wait_for_element_visible page selfT loc none ∧
    wait_for_element_clickable page selfT loc (some 0) =
      wait_for_element_clickable page selfT loc none ∧
    click_element page selfT loc (some 0) = click_element page selfT loc none ∧
    send_keys_to_element page selfT loc text (some 0) =
      send_keys_to_element page selfT loc text none ∧
    get_element_text page selfT loc (some 0) = get_element_text page selfT loc none :=
  ⟨rfl, rfl, rfl, rfl, rfl, rfl, rfl, rfl⟩

/-- C10: an explicit empty-string mode argument is falsy, so it falls
through to the ambient `EXECUTION_MODE` value exactly as an absent argument
does; but an `EXECUTION_MODE` variable that is present and empty is
returned as the empty string by `os.getenv` — the session then fails with
the unsupported-mode error instead of defaulting to local. -/
theorem empty_mode_explicit_vs_ambient (env : Env) (browser : String) (cn : Option String)
    (bn u k : String) (fc ff : LocalDriver) :
    resolve_execution_mode (some "") env = resolve_execution_mode none env ∧
    (env "EXECUTION_MODE" = some "" →
       resolve_execution_mode (some "") env = "" ∧
       basePage_create_driver (some "") env browser cn bn u k fc ff =
         .error (UnsupportedModeError "")) := by
  constructor
  · rfl
  · intro he
    have hr : resolve_execution_mode (some "") env = "" := by
      show get_optional_env env "EXECUTION_MODE" "local" = ""
      unfold get_optional_env
      rw [he]
      rfl
    refine ⟨hr, ?_⟩
    unfold basePage_create_driver
    rw [hr]
    rfl

/-- C10 witness: with `EXECUTION_MODE` set to the empty string and no
explicit mode, creation raises the unsupported-mode error rather than
defaulting to local. -/
theorem empty_mode_explicit_vs_ambient_witness :
    basePage_create_driver (some "")
        (fun key => if key = "EXECUTION_MODE" then some "" else none)
        "chrome" none "b" "u" "k" freshChromeEx freshFirefoxEx =
      .error (UnsupportedModeError "") :=
  ((empty_mode_explicit_vs_ambient
      (fun key => if key = "EXECUTION_MODE" then some "" else none)
      "chrome" none "b" "u" "k" freshChromeEx freshFirefoxEx).2 (by decide)).2

end BstackAB
